import Mathlib

/-!
Shallow embedding of the browser daemon command-dispatch core
(`browser_daemon.py` together with the parts of `browser_automation.py`
it delegates to).

Page handles are modelled as `Nat` identifiers.  The behaviour of the
underlying Playwright primitives (which may succeed or raise) is an
explicit `Oracle` parameter: each primitive either returns a value or
fails with an error message, mirroring a raised exception.  Python
exceptions are modelled as `Except.error`; state mutations performed
before an exception is raised are preserved (explicit state passing),
exactly as in Python.
-/

/-- JSON-like values, the payloads of command arguments and result data. -/
inductive Val where
  | null : Val
  | str : String → Val
  | int : Int → Val
  | bool : Bool → Val
  | list : List Val → Val
  | dict : List (String × Val) → Val

/-- One tab record, mirroring the dicts stored in `self.pages`.  `purpose` is `none` for the initial tab (its dict has no purpose key);
reads use `.get(purpose, general)`. -/
structure Tab where
  page : Nat
  title : String
  url : String
  index : Nat
  purpose : Option Val

/-- The daemon mutable state: the tab list, the current-tab pointer,
whether `self.automation` is set, whether `self.automation.context` is
set, `self.automation.page` (the page handle all page-scoped commands
target), a fresh-page-id supply for `context.new_page()`, the
`self.running` flag, and a log of every `goto` call issued to the
browser (the observable "string passed to the underlying navigation"). -/
structure DaemonState where
  pages : List Tab
  current_page_index : Nat
  automationSet : Bool
  contextSet : Bool
  automationPage : Option Nat
  nextPage : Nat
  running : Bool
  gotoLog : List (Nat × String)

/-- Behaviour of the underlying browser primitives; each call either
returns a value or raises (`Except.error` with the exception message). -/
structure Oracle where
  startBrowser : Except String Unit
  goto : Nat → String → Except String Unit
  title : Nat → Except String String
  pageUrl : Nat → Except String String
  click : Nat → String → Except String Unit
  fill : Nat → String → String → Except String Unit
  screenshot : Nat → String → Except String Unit
  waitFor : Nat → String → Except String Unit
  evaluate : Nat → String → Except String Val
  bringToFront : Nat → Except String Unit
  newPage : Nat → Except String Unit

/-- A decoded command: `(type, args)`. -/
structure Command where
  type : String
  args : List (String × Val)

/-- A result envelope: `{status, message, data}`. -/
structure CmdResult where
  status : String
  message : String
  data : Val

/-- `args.get(key)`: `none` when the key is absent. -/
def getArg : List (String × Val) → String → Option Val
  | [], _ => Option.none
  | (k, v) :: rest, key => if k = key then some v else getArg rest key

/-- Python truthiness of an optional argument value
(`None`, `""`, `0`, `False`, `[]`, `{}` are falsy). -/
def truthy : Option Val → Bool
  | Option.none => false
  | some Val.null => false
  | some (Val.str s) => !(s == "")
  | some (Val.int n) => !(n == 0)
  | some (Val.bool b) => b
  | some (Val.list l) => !l.isEmpty
  | some (Val.dict l) => !l.isEmpty

/-- Character-level test that the first list starts with the second
(Python `str.startswith`, spelled out so it evaluates by kernel
reduction). -/
def charsStartWith : List Char → List Char → Bool
  | _, [] => true
  | [], _ :: _ => false
  | c :: cs, d :: ds => (c == d) && charsStartWith cs ds

/-- Python `s.startswith(pat)`. -/
def pyStartsWith (s pat : String) : Bool := charsStartWith s.data pat.data

/-- URL normalization from the dispatcher:
`if not url.startswith((http://, https://)): url = https:// + url`. -/
def normalizeUrl (url : String) : String :=
  if pyStartsWith url "http://" || pyStartsWith url "https://" then url
  else "https://" ++ url

/-- Record a `goto` call in the observation log (the call is issued to the
browser whether or not it succeeds). -/
def logGoto (s : DaemonState) (p : Nat) (u : String) : DaemonState :=
  { s with gotoLog := s.gotoLog ++ [(p, u)] }

/-- Placeholder tab used with `List.getD`; never the result of an
in-bounds access. -/
def dummyTab : Tab :=
  { page := 0, title := "", url := "", index := 0, purpose := Option.none }

/-- `tab.get(purpose, general)`. -/
def Tab.purposeVal (t : Tab) : Val :=
  t.purpose.getD (Val.str "general")

/-- `BrowserAutomation.navigate_to`: `try: self.page.goto(url); return
{"success": True, "url": url, "title": self.page.title()} except e:
return {"success": False, "error": str(e)}`.  It catches its own
failures, so it never raises to the dispatcher. -/
def navigate_to (o : Oracle) (s : DaemonState) (u : String) : DaemonState × Val :=
  match s.automationPage with
  | Option.none =>
      (s, Val.dict [("success", Val.bool false),
                    ("error", Val.str "AttributeError: NoneType object has no attribute goto")])
  | some p =>
      let s1 := logGoto s p u
      match o.goto p u with
      | Except.error e => (s1, Val.dict [("success", Val.bool false), ("error", Val.str e)])
      | Except.ok _ =>
          match o.title p with
          | Except.error e => (s1, Val.dict [("success", Val.bool false), ("error", Val.str e)])
          | Except.ok t =>
              (s1, Val.dict [("success", Val.bool true), ("url", Val.str u), ("title", Val.str t)])

/-- `BrowserAutomation.click_element`: catches its own failures and
returns a `success: False` payload instead of raising. -/
def click_element (o : Oracle) (s : DaemonState) (sel : Option Val) : Val :=
  match s.automationPage with
  | Option.none => Val.dict [("success", Val.bool false),
                             ("error", Val.str "AttributeError: NoneType object has no attribute click")]
  | some p =>
      match sel with
      | some (Val.str selector) =>
          match o.click p selector with
          | Except.error e => Val.dict [("success", Val.bool false), ("error", Val.str e)]
          | Except.ok _ => Val.dict [("success", Val.bool true), ("selector", Val.str selector)]
      | _ => Val.dict [("success", Val.bool false), ("error", Val.str "invalid selector")]

/-- `BrowserAutomation.fill_form`: same swallow-own-failure shape. -/
def fill_form (o : Oracle) (s : DaemonState) (sel text : Option Val) : Val :=
  match s.automationPage with
  | Option.none => Val.dict [("success", Val.bool false),
                             ("error", Val.str "AttributeError: NoneType object has no attribute fill")]
  | some p =>
      match sel, text with
      | some (Val.str selector), some (Val.str txt) =>
          match o.fill p selector txt with
          | Except.error e => Val.dict [("success", Val.bool false), ("error", Val.str e)]
          | Except.ok _ => Val.dict [("success", Val.bool true), ("selector", Val.str selector)]
      | _, _ => Val.dict [("success", Val.bool false), ("error", Val.str "invalid arguments")]

/-- `BrowserAutomation.take_screenshot`: same swallow-own-failure shape. -/
def take_screenshot (o : Oracle) (s : DaemonState) (filename : Val) : Val :=
  match s.automationPage with
  | Option.none => Val.dict [("success", Val.bool false),
                             ("error", Val.str "AttributeError: NoneType object has no attribute screenshot")]
  | some p =>
      match filename with
      | Val.str f =>
          match o.screenshot p f with
          | Except.error e => Val.dict [("success", Val.bool false), ("error", Val.str e)]
          | Except.ok _ => Val.dict [("success", Val.bool true), ("filename", Val.str f)]
      | _ => Val.dict [("success", Val.bool false), ("error", Val.str "invalid filename")]

/-- `BrowserAutomation.wait_for_element`: same swallow-own-failure shape. -/
def wait_for_element (o : Oracle) (s : DaemonState) (sel : Option Val) : Val :=
  match s.automationPage with
  | Option.none => Val.dict [("success", Val.bool false),
                             ("error", Val.str "AttributeError: NoneType object has no attribute wait_for_selector")]
  | some p =>
      match sel with
      | some (Val.str selector) =>
          match o.waitFor p selector with
          | Except.error e => Val.dict [("success", Val.bool false), ("error", Val.str e)]
          | Except.ok _ => Val.dict [("success", Val.bool true), ("selector", Val.str selector)]
      | _ => Val.dict [("success", Val.bool false), ("error", Val.str "invalid selector")]

/-- `BrowserAutomation.execute_javascript`: same swallow-own-failure shape. -/
def execute_javascript (o : Oracle) (s : DaemonState) (script : Option Val) : Val :=
  match s.automationPage with
  | Option.none => Val.dict [("success", Val.bool false),
                             ("error", Val.str "AttributeError: NoneType object has no attribute evaluate")]
  | some p =>
      match script with
      | some (Val.str sc) =>
          match o.evaluate p sc with
          | Except.error e => Val.dict [("success", Val.bool false), ("error", Val.str e)]
          | Except.ok v => Val.dict [("success", Val.bool true), ("result", v)]
      | _ => Val.dict [("success", Val.bool false), ("error", Val.str "invalid script")]

/-- Best-effort metadata refresh of one tab, as performed by the
`current_tab` case (`try: tab.title = page.title(); tab.url = page.url; except: pass`): a mutation made before the failing call is
kept, later ones are skipped. -/
def refreshPass (o : Oracle) (t : Tab) : Tab :=
  match o.title t.page with
  | Except.error _ => t
  | Except.ok ti =>
      let t1 := { t with title := ti }
      match o.pageUrl t1.page with
      | Except.error _ => t1
      | Except.ok u => { t1 with url := u }

/-- Whether the metadata refresh of a tab succeeds fully (the page
handle is alive). -/
def refreshOk (o : Oracle) (t : Tab) : Bool :=
  match o.title t.page with
  | Except.error _ => false
  | Except.ok _ =>
      match o.pageUrl t.page with
      | Except.error _ => false
      | Except.ok _ => true

/-- The entry `list_tabs` reports for a dead tab. -/
def sentinelEntry (i : Nat) (t : Tab) : Val :=
  Val.dict [("index", Val.int i), ("title", Val.str "Closed Tab"),
            ("url", Val.str "about:blank"), ("purpose", t.purposeVal),
            ("active", Val.bool false)]

/-- The entry `list_tabs` reports for a live tab (after refresh). -/
def liveEntry (i cur : Nat) (t : Tab) : Val :=
  Val.dict [("index", Val.int i), ("title", Val.str t.title),
            ("url", Val.str t.url), ("purpose", t.purposeVal),
            ("active", Val.bool (i == cur))]

/-- One iteration of the `list_tabs` loop body on tab `t` at position
`i`: returns the (possibly partially) refreshed stored tab and the
reported entry. -/
def listTabsStep (o : Oracle) (cur i : Nat) (t : Tab) : Tab × Val :=
  let t' := refreshPass o t
  if refreshOk o t then (t', liveEntry i cur t') else (t', sentinelEntry i t)

/-- The `list_tabs` loop over the registry, starting at position `i`. -/
def listTabsAux (o : Oracle) (cur : Nat) : Nat → List Tab → List Tab × List Val
  | _, [] => ([], [])
  | i, t :: ts =>
      let p := listTabsStep o cur i t
      let rest := listTabsAux o cur (i + 1) ts
      (p.1 :: rest.1, p.2 :: rest.2)

/-- The `navigate` case of `BrowserDaemon.execute_command`. -/
def navigateCase (o : Oracle) (s : DaemonState) (args : List (String × Val)) :
    DaemonState × Except String CmdResult :=
  match getArg args "url" with
  | some (Val.str u) =>
      let u' := normalizeUrl u
      let r := navigate_to o s u'
      (r.1, Except.ok { status := "success", message := "Navigated to " ++ u', data := r.2 })
  | _ => (s, Except.error "AttributeError: NoneType object has no attribute startswith")

/-- The `title` case: `self.automation.page.title()` is called directly,
so its failure raises to the dispatch boundary. -/
def titleCase (o : Oracle) (s : DaemonState) : DaemonState × Except String CmdResult :=
  match s.automationPage with
  | Option.none => (s, Except.error "AttributeError: NoneType object has no attribute title")
  | some p =>
      match o.title p with
      | Except.error e => (s, Except.error e)
      | Except.ok t =>
          (s, Except.ok { status := "success", message := "Page title: " ++ t, data := Val.str t })

/-- The `new_tab` case: create a page, append the tab record, make it
current, then (if a truthy `url` argument is present) navigate via a raw
`page.goto` whose failure raises after the registry mutation. -/
def newTabCase (o : Oracle) (s : DaemonState) (args : List (String × Val)) :
    DaemonState × Except String CmdResult :=
  if s.contextSet then
    match o.newPage s.nextPage with
    | Except.error e => (s, Except.error e)
    | Except.ok _ =>
        let pid := s.nextPage
        let tab0 : Tab :=
          { page := pid, title := "New Tab", url := "about:blank", index := s.pages.length,
            purpose := some ((getArg args "purpose").getD (Val.str "general")) }
        let s1 : DaemonState :=
          { s with pages := s.pages ++ [tab0], current_page_index := s.pages.length,
                   automationPage := some pid, nextPage := pid + 1 }
        let done : Tab → DaemonState → DaemonState × Except String CmdResult := fun t st =>
          (st, Except.ok { status := "success",
                           message := "New tab opened (Tab " ++ toString (t.index + 1) ++ ")",
                           data := Val.dict [("tab_index", Val.int t.index),
                                             ("purpose", t.purposeVal),
                                             ("url", Val.str t.url)] })
        if truthy (getArg args "url") then
          match getArg args "url" with
          | some (Val.str u) =>
              let u' := normalizeUrl u
              let s2 := logGoto s1 pid u'
              match o.goto pid u' with
              | Except.error e => (s2, Except.error e)
              | Except.ok _ =>
                  match o.title pid with
                  | Except.error e => (s2, Except.error e)
                  | Except.ok ti =>
                      let tab1 := { tab0 with url := u', title := ti }
                      done tab1 { s2 with pages := s2.pages.dropLast ++ [tab1] }
          | _ => (s1, Except.error "AttributeError: NoneType object has no attribute startswith")
        else done tab0 s1
  else (s, Except.error "AttributeError: NoneType object has no attribute new_page")

/-- The `switch_tab` case: bounds-check, then mutate the current-tab
pointer, then `bring_to_front()` (whose failure raises after the
mutation). -/
def switchTabCase (o : Oracle) (s : DaemonState) (args : List (String × Val)) :
    DaemonState × Except String CmdResult :=
  match (getArg args "index").getD (Val.int 0) with
  | Val.int ti =>
      if 0 ≤ ti ∧ ti < (s.pages.length : Int) then
        let i := ti.toNat
        let tab := s.pages.getD i dummyTab
        let s1 := { s with current_page_index := i, automationPage := some tab.page }
        match o.bringToFront tab.page with
        | Except.error e => (s1, Except.error e)
        | Except.ok _ =>
            (s1, Except.ok { status := "success",
                             message := "Switched to Tab " ++ toString (i + 1),
                             data := Val.dict [("tab_index", Val.int i),
                                               ("title", Val.str tab.title),
                                               ("url", Val.str tab.url),
                                               ("purpose", tab.purposeVal)] })
      else (s, Except.ok { status := "error",
                           message := "Tab index " ++ toString ti ++ " not found",
                           data := Val.null })
  | _ => (s, Except.error "TypeError: comparison not supported")

/-- The `list_tabs` case: refresh every tab best-effort, reporting
sentinel values for dead tabs; never raises. -/
def listTabsCase (o : Oracle) (s : DaemonState) : DaemonState × Except String CmdResult :=
  let r := listTabsAux o s.current_page_index 0 s.pages
  ({ s with pages := r.1 },
   Except.ok { status := "success",
               message := "Found " ++ toString r.2.length ++ " tabs",
               data := Val.dict [("tabs", Val.list r.2),
                                 ("current_tab", Val.int s.current_page_index)] })

/-- The `current_tab` case: empty registry yields an error result;
otherwise refresh the current tab with `except: pass` (cached values are
kept on failure) and report success. -/
def currentTabCase (o : Oracle) (s : DaemonState) : DaemonState × Except String CmdResult :=
  if s.pages.isEmpty then
    (s, Except.ok { status := "error", message := "No tabs available", data := Val.null })
  else if s.current_page_index < s.pages.length then
    let t := s.pages.getD s.current_page_index dummyTab
    let t' := refreshPass o t
    let s1 := { s with pages := s.pages.set s.current_page_index t' }
    (s1, Except.ok { status := "success", message := "Current tab info",
                     data := Val.dict [("tab_index", Val.int s.current_page_index),
                                       ("title", Val.str t'.title),
                                       ("url", Val.str t'.url),
                                       ("purpose", t'.purposeVal)] })
  else (s, Except.error "IndexError: list index out of range")

/-- The body of the `try:` block of `BrowserDaemon.execute_command` — the
`if/elif` chain over `command_data.get(type)`.  An `Except.error`
models an exception reaching the dispatch boundary; the paired state
keeps any mutations already performed. -/
def executeBody (o : Oracle) (s : DaemonState) (cmd : Command) :
    DaemonState × Except String CmdResult :=
  if cmd.type = "navigate" then navigateCase o s cmd.args
  else if cmd.type = "click" then
    (s, Except.ok { status := "success",
                    message := "Clicked", data := click_element o s (getArg cmd.args "selector") })
  else if cmd.type = "fill" then
    (s, Except.ok { status := "success", message := "Filled",
                    data := fill_form o s (getArg cmd.args "selector") (getArg cmd.args "text") })
  else if cmd.type = "screenshot" then
    (s, Except.ok { status := "success", message := "Screenshot saved",
                    data := take_screenshot o s
                      ((getArg cmd.args "filename").getD (Val.str "screenshot.png")) })
  else if cmd.type = "title" then titleCase o s
  else if cmd.type = "wait" then
    (s, Except.ok { status := "success", message := "Waited",
                    data := wait_for_element o s (getArg cmd.args "selector") })
  else if cmd.type = "js" then
    (s, Except.ok { status := "success", message := "JavaScript executed",
                    data := execute_javascript o s (getArg cmd.args "script") })
  else if cmd.type = "new_tab" then newTabCase o s cmd.args
  else if cmd.type = "switch_tab" then switchTabCase o s cmd.args
  else if cmd.type = "list_tabs" then listTabsCase o s
  else if cmd.type = "current_tab" then currentTabCase o s
  else if cmd.type = "stop" then
    ({ s with running := false },
     Except.ok { status := "success", message := "Stopping daemon", data := Val.null })
  else
    (s, Except.ok { status := "error", message := "Unknown command: " ++ cmd.type,
                    data := Val.null })

/-- `BrowserDaemon.execute_command`: the `if not self.automation` guard,
then the `try:` body, with `except Exception as e: return {"status":
"error", "message": str(e)}` at the dispatch boundary. -/
def execute_command (o : Oracle) (s : DaemonState) (cmd : Command) :
    DaemonState × CmdResult :=
  if s.automationSet then
    match executeBody o s cmd with
    | (s1, Except.ok r) => (s1, r)
    | (s1, Except.error e) => (s1, { status := "error", message := e, data := Val.null })
  else (s, { status := "error", message := "Browser not started", data := Val.null })

/-- The state set up by `BrowserDaemon.__init__` before `start_browser()` runs:
no tabs, current index 0, `running = True`. -/
def initState : DaemonState :=
  { pages := [], current_page_index := 0, automationSet := false, contextSet := false,
    automationPage := Option.none, nextPage := 0, running := true, gotoLog := [] }

/-- `BrowserDaemon.start_browser`: on success register the initial page
as tab 0 and write a startup result; on failure write an error result —
`self.running` is untouched in both branches.  The initial page gets
handle 0. -/
def start_browser (o : Oracle) (s : DaemonState) : DaemonState × CmdResult :=
  match o.startBrowser with
  | Except.ok _ =>
      ({ s with automationSet := true, contextSet := true, automationPage := some 0,
                nextPage := 1,
                pages := s.pages ++ [{ page := 0, title := "New Tab", url := "about:blank",
                                       index := 0, purpose := Option.none }] },
       { status := "started", message := "Browser daemon ready", data := Val.null })
  | Except.error e =>
      ({ s with automationSet := true },
       { status := "error", message := e, data := Val.null })

/-- `BrowserDaemon.run`, abstracted over the sequence of commands the
poll loop would find: while `self.running`, dispatch the next command
and write its result; a `stop` command breaks the loop after its result
is written. -/
def runLoop (o : Oracle) : DaemonState → List Command → DaemonState × List CmdResult
  | s, [] => (s, [])
  | s, c :: cs =>
      if s.running then
        let r := execute_command o s c
        if c.type = "stop" then (r.1, [r.2])
        else
          let rest := runLoop o r.1 cs
          (rest.1, r.2 :: rest.2)
      else (s, [])

/-- The registry invariant of the spec: a valid current-tab pointer when
non-empty, and the `index` stored in every tab equals its position. -/
def RegistryInv (s : DaemonState) : Prop :=
  (s.pages ≠ [] → s.current_page_index < s.pages.length) ∧
  (∀ i t, s.pages.get? i = some t → t.index = i)

/-- Field lookup in a `Val.dict`. -/
def Val.getField : Val → String → Option Val
  | Val.dict fields, key => getArg fields key
  | _, _ => Option.none

/-- An oracle on which every browser primitive succeeds. -/
def okO : Oracle :=
  { startBrowser := Except.ok (), goto := fun _ _ => Except.ok (),
    title := fun _ => Except.ok "T", pageUrl := fun _ => Except.ok "U",
    click := fun _ _ => Except.ok (), fill := fun _ _ _ => Except.ok (),
    screenshot := fun _ _ => Except.ok (), waitFor := fun _ _ => Except.ok (),
    evaluate := fun _ _ => Except.ok Val.null, bringToFront := fun _ => Except.ok (),
    newPage := fun _ => Except.ok () }

/-- An oracle on which the browser starts but every page operation
raises (all page handles are dead). -/
def deadO : Oracle :=
  { startBrowser := Except.ok (), goto := fun _ _ => Except.error "dead goto",
    title := fun _ => Except.error "dead title", pageUrl := fun _ => Except.error "dead url",
    click := fun _ _ => Except.error "dead click", fill := fun _ _ _ => Except.error "dead fill",
    screenshot := fun _ _ => Except.error "dead shot", waitFor := fun _ _ => Except.error "dead wait",
    evaluate := fun _ _ => Except.error "dead js", bringToFront := fun _ => Except.error "dead front",
    newPage := fun _ => Except.error "dead newpage" }

/-- An oracle on which the browser engine fails to launch. -/
def failO : Oracle := { deadO with startBrowser := Except.error "browser launch failed" }

/-- An oracle on which everything works except navigation. -/
def navFailO : Oracle := { okO with goto := fun _ _ => Except.error "net::ERR_NAME_NOT_RESOLVED" }

/-- The daemon state right after a successful startup: one tab (the
initial page, handle 0), current index 0. -/
def s0 : DaemonState := (start_browser okO initState).1

/-- A daemon state whose single tab carries cached metadata from an
earlier navigation (used to observe stale-cache behaviour). -/
def sEx : DaemonState :=
  { s0 with pages := [{ page := 0, title := "Example Domain", url := "https://example.com",
                        index := 0, purpose := Option.none }] }

/-- Two-tab state used by witnesses: the started daemon after one
`new_tab` command. -/
def s2tabs : DaemonState :=
  (execute_command okO s0 { type := "new_tab", args := [("purpose", Val.str "search")] }).1

/-- Append-only evolution of the tab list: no position disappears and
every surviving tab keeps its stored `index`. -/
def PreservesTabs (ps ps' : List Tab) : Prop :=
  ps.length ≤ ps'.length ∧
  ∀ i t, ps.get? i = some t → ∃ t2, ps'.get? i = some t2 ∧ t2.index = t.index

/-- Dispatch reduction: a `navigate` command takes the `navigateCase` branch. -/
theorem executeBody_navigate (o : Oracle) (s : DaemonState) (args : List (String × Val)) :
    executeBody o s { type := "navigate", args := args } = navigateCase o s args := rfl

/-- Dispatch reduction: a `title` command takes the `titleCase` branch. -/
theorem executeBody_title (o : Oracle) (s : DaemonState) (args : List (String × Val)) :
    executeBody o s { type := "title", args := args } = titleCase o s := rfl

/-- Dispatch reduction: a `new_tab` command takes the `newTabCase` branch. -/
theorem executeBody_new_tab (o : Oracle) (s : DaemonState) (args : List (String × Val)) :
    executeBody o s { type := "new_tab", args := args } = newTabCase o s args := rfl

/-- Dispatch reduction: a `switch_tab` command takes the `switchTabCase` branch. -/
theorem executeBody_switch_tab (o : Oracle) (s : DaemonState) (args : List (String × Val)) :
    executeBody o s { type := "switch_tab", args := args } = switchTabCase o s args := rfl

/-- Dispatch reduction: a `list_tabs` command takes the `listTabsCase` branch. -/
theorem executeBody_list_tabs (o : Oracle) (s : DaemonState) (args : List (String × Val)) :
    executeBody o s { type := "list_tabs", args := args } = listTabsCase o s := rfl

/-- Dispatch reduction: a `current_tab` command takes the `currentTabCase` branch. -/
theorem executeBody_current_tab (o : Oracle) (s : DaemonState) (args : List (String × Val)) :
    executeBody o s { type := "current_tab", args := args } = currentTabCase o s := rfl

/-- `execute_command` on a started daemon is the boundary wrapper around
`executeBody`. -/
theorem execute_command_started (o : Oracle) (s : DaemonState) (cmd : Command)
    (hset : s.automationSet = true) :
    execute_command o s cmd =
      ((executeBody o s cmd).1,
       match (executeBody o s cmd).2 with
       | Except.ok r => r
       | Except.error e => { status := "error", message := e, data := Val.null }) := by
  unfold execute_command
  rw [hset]
  simp only [if_true]
  rcases h : executeBody o s cmd with ⟨s1, r⟩
  cases r <;> simp

/-- Boundary wrapper, successful body: the body result is returned as is. -/
theorem execute_command_of_body_ok (o : Oracle) (s : DaemonState) (cmd : Command)
    (s1 : DaemonState) (r : CmdResult) (hset : s.automationSet = true)
    (h : executeBody o s cmd = (s1, Except.ok r)) :
    execute_command o s cmd = (s1, r) := by
  unfold execute_command
  rw [hset]
  simp [h]

/-- Boundary wrapper, raising body: the exception becomes an error result
and the partially mutated state is kept. -/
theorem execute_command_of_body_error (o : Oracle) (s : DaemonState) (cmd : Command)
    (s1 : DaemonState) (e : String) (hset : s.automationSet = true)
    (h : executeBody o s cmd = (s1, Except.error e)) :
    execute_command o s cmd = (s1, { status := "error", message := e, data := Val.null }) := by
  unfold execute_command
  rw [hset]
  simp [h]

/-- Reduction of `switchTabCase` on a literal integer argument. -/
theorem switchTabCase_int (o : Oracle) (s : DaemonState) (i : Int) :
    switchTabCase o s [("index", Val.int i)] =
      if 0 ≤ i ∧ i < (s.pages.length : Int) then
        (match o.bringToFront (s.pages.getD i.toNat dummyTab).page with
         | Except.error e =>
             ({ s with current_page_index := i.toNat,
                       automationPage := some (s.pages.getD i.toNat dummyTab).page },
              Except.error e)
         | Except.ok _ =>
             ({ s with current_page_index := i.toNat,
                       automationPage := some (s.pages.getD i.toNat dummyTab).page },
              Except.ok { status := "success",
                          message := "Switched to Tab " ++ toString (i.toNat + 1),
                          data := Val.dict [("tab_index", Val.int i.toNat),
                                            ("title", Val.str (s.pages.getD i.toNat dummyTab).title),
                                            ("url", Val.str (s.pages.getD i.toNat dummyTab).url),
                                            ("purpose", (s.pages.getD i.toNat dummyTab).purposeVal)] }))
      else (s, Except.ok { status := "error",
                           message := "Tab index " ++ toString i ++ " not found",
                           data := Val.null }) := rfl

/-- Reduction of `navigateCase` on a literal string url argument. -/
theorem navigateCase_url (o : Oracle) (s : DaemonState) (u : String) :
    navigateCase o s [("url", Val.str u)] =
      ((navigate_to o s (normalizeUrl u)).1,
       Except.ok { status := "success", message := "Navigated to " ++ normalizeUrl u,
                   data := (navigate_to o s (normalizeUrl u)).2 }) := rfl


/-- The state component of dispatch on a started daemon comes from the body. -/
theorem execute_command_fst (o : Oracle) (s : DaemonState) (cmd : Command)
    (hset : s.automationSet = true) :
    (execute_command o s cmd).1 = (executeBody o s cmd).1 := by
  unfold execute_command
  simp only [hset, if_true]
  rcases hb : executeBody o s cmd with ⟨s1, r⟩
  cases r <;> simp

/-- `navigate_to` always records exactly one `goto` call on the current
page, whether or not the navigation succeeds. -/
theorem navigate_to_fst (o : Oracle) (s : DaemonState) (u : String) (p : Nat)
    (hpage : s.automationPage = some p) :
    (navigate_to o s u).1 = logGoto s p u := by
  unfold navigate_to
  rw [hpage]
  dsimp only
  rcases hg : o.goto p u with e | _
  · simp [hg]
  · rcases ht : o.title p with e2 | t <;> simp [hg, ht]

/-- In the `new_tab` case with a navigated url, the `goto` call targets
the normalized url on the fresh page (whatever the outcome). -/
theorem newTabCase_gotoLog (o : Oracle) (s : DaemonState) (u : String)
    (hctx : s.contextSet = true) (hnp : o.newPage s.nextPage = Except.ok ())
    (hne : u ≠ "") :
    (newTabCase o s [("url", Val.str u)]).1.gotoLog
      = s.gotoLog ++ [(s.nextPage, normalizeUrl u)] := by
  have h0 : (u == "") = false := beq_eq_false_iff_ne.mpr hne
  unfold newTabCase
  simp only [hctx, if_true, hnp]
  simp only [getArg, truthy, if_pos rfl, h0, Bool.not_false, if_true]
  rcases hg : o.goto s.nextPage (normalizeUrl u) with e | _
  · simp [hg, logGoto]
  · rcases ht : o.title s.nextPage with e2 | t <;> simp [hg, ht, logGoto]

/-- C5: for every url supplied to `navigate` or to `new_tab` with a url
argument, the string passed to the underlying navigation is the supplied
string with `https://` attached when it lacks an explicit scheme marker
and unchanged when it has one; in particular `example.com` is navigated
as `https://example.com`. -/
theorem c5_url_normalization (o : Oracle) (s : DaemonState) (p : Nat) (u : String)
    (hset : s.automationSet = true) (hpage : s.automationPage = some p)
    (hctx : s.contextSet = true) (hnp : o.newPage s.nextPage = Except.ok ())
    (hne : u ≠ "") :
    ((execute_command o s { type := "navigate", args := [("url", Val.str u)] }).1.gotoLog
        = s.gotoLog ++ [(p, normalizeUrl u)]) ∧
    ((execute_command o s { type := "new_tab", args := [("url", Val.str u)] }).1.gotoLog
        = s.gotoLog ++ [(s.nextPage, normalizeUrl u)]) ∧
    (pyStartsWith u "http://" = false → pyStartsWith u "https://" = false →
        normalizeUrl u = "https://" ++ u) ∧
    ((pyStartsWith u "http://" = true ∨ pyStartsWith u "https://" = true) →
        normalizeUrl u = u) ∧
    normalizeUrl "example.com" = "https://example.com" := by
  refine ⟨?_, ?_, ?_, ?_, by rfl⟩
  · rw [execute_command_fst _ _ _ hset, executeBody_navigate, navigateCase_url]
    dsimp only
    rw [navigate_to_fst _ _ _ _ hpage]
    rfl
  · rw [execute_command_fst _ _ _ hset, executeBody_new_tab]
    exact newTabCase_gotoLog o s u hctx hnp hne
  · intro hA hB
    unfold normalizeUrl
    rw [hA, hB]
    rfl
  · intro h
    unfold normalizeUrl
    rcases h with h | h <;> rw [h] <;> simp

/-- Witness for C5 at `example.com` on the freshly started daemon. -/
theorem c5_witness :
    (s0.automationSet = true ∧ s0.automationPage = some 0 ∧ s0.contextSet = true ∧
     okO.newPage s0.nextPage = Except.ok () ∧ "example.com" ≠ "") ∧
    (((execute_command okO s0 { type := "navigate", args := [("url", Val.str "example.com")] }).1.gotoLog
        = s0.gotoLog ++ [(0, normalizeUrl "example.com")]) ∧
     ((execute_command okO s0 { type := "new_tab", args := [("url", Val.str "example.com")] }).1.gotoLog
        = s0.gotoLog ++ [(s0.nextPage, normalizeUrl "example.com")]) ∧
     (pyStartsWith "example.com" "http://" = false → pyStartsWith "example.com" "https://" = false →
        normalizeUrl "example.com" = "https://" ++ "example.com") ∧
     ((pyStartsWith "example.com" "http://" = true ∨ pyStartsWith "example.com" "https://" = true) →
        normalizeUrl "example.com" = "example.com") ∧
     normalizeUrl "example.com" = "https://example.com") :=
  ⟨⟨rfl, rfl, rfl, rfl, by decide⟩,
   c5_url_normalization okO s0 0 "example.com" rfl rfl rfl rfl (by decide)⟩

/-- C6: for every index outside `[0, tab_count)`, `switch_tab` returns
an error Result and leaves the whole daemon state — in particular
`current_page_index` — unchanged. -/
theorem c6_switch_tab_out_of_range (o : Oracle) (s : DaemonState) (i : Int)
    (hset : s.automationSet = true)
    (hout : ¬ (0 ≤ i ∧ i < (s.pages.length : Int))) :
    execute_command o s { type := "switch_tab", args := [("index", Val.int i)] }
      = (s, { status := "error", message := "Tab index " ++ toString i ++ " not found",
              data := Val.null }) := by
  apply execute_command_of_body_ok _ _ _ _ _ hset
  rw [executeBody_switch_tab, switchTabCase_int, if_neg hout]

/-- Witness for C6: index 5 on the one-tab started daemon. -/
theorem c6_witness :
    (s0.automationSet = true ∧ ¬ ((0 : Int) ≤ 5 ∧ (5 : Int) < (s0.pages.length : Int))) ∧
    execute_command okO s0 { type := "switch_tab", args := [("index", Val.int 5)] }
      = (s0, { status := "error", message := "Tab index " ++ toString (5 : Int) ++ " not found",
               data := Val.null }) :=
  ⟨⟨rfl, by decide⟩, c6_switch_tab_out_of_range okO s0 5 rfl (by decide)⟩

/-- Reduction of `newTabCase` when no truthy url argument is supplied. -/
theorem newTabCase_no_url (o : Oracle) (s : DaemonState) (args : List (String × Val))
    (hctx : s.contextSet = true) (hnp : o.newPage s.nextPage = Except.ok ())
    (hurl : truthy (getArg args "url") = false) :
    newTabCase o s args =
      ({ s with pages := s.pages ++
                  [{ page := s.nextPage, title := "New Tab", url := "about:blank",
                     index := s.pages.length,
                     purpose := some ((getArg args "purpose").getD (Val.str "general")) }],
                current_page_index := s.pages.length,
                automationPage := some s.nextPage, nextPage := s.nextPage + 1 },
       Except.ok { status := "success",
                   message := "New tab opened (Tab " ++ toString (s.pages.length + 1) ++ ")",
                   data := Val.dict [("tab_index", Val.int s.pages.length),
                                     ("purpose", (getArg args "purpose").getD (Val.str "general")),
                                     ("url", Val.str "about:blank")] }) := by
  unfold newTabCase
  simp only [hctx, if_true, hnp]
  simp only [hurl, Bool.false_eq_true, if_false]
  simp [Tab.purposeVal]

/-- C4: on every registry state, a `new_tab` command (no url argument)
grows the tab list by exactly one, makes the new tab current, and
returns success with `tab_index` equal to the prior tab count. -/
theorem c4_new_tab_appends (o : Oracle) (s : DaemonState) (args : List (String × Val))
    (hset : s.automationSet = true) (hctx : s.contextSet = true)
    (hnp : o.newPage s.nextPage = Except.ok ())
    (hurl : getArg args "url" = Option.none) :
    (execute_command o s { type := "new_tab", args := args }).1.pages.length
        = s.pages.length + 1 ∧
    (execute_command o s { type := "new_tab", args := args }).1.current_page_index
        = s.pages.length ∧
    (execute_command o s { type := "new_tab", args := args }).2.status = "success" ∧
    (execute_command o s { type := "new_tab", args := args }).2.data.getField "tab_index"
        = some (Val.int s.pages.length) := by
  have ht : truthy (getArg args "url") = false := by rw [hurl]; rfl
  have hb : executeBody o s { type := "new_tab", args := args } = _ :=
    (executeBody_new_tab o s args).trans (newTabCase_no_url o s args hctx hnp ht)
  rw [execute_command_of_body_ok _ _ _ _ _ hset hb]
  refine ⟨by simp, rfl, rfl, ?_⟩
  simp [Val.getField, getArg]

/-- Witness for C4 on the one-tab started daemon. -/
theorem c4_witness :
    (s0.automationSet = true ∧ s0.contextSet = true ∧
     okO.newPage s0.nextPage = Except.ok () ∧
     getArg [("purpose", Val.str "search")] "url" = Option.none) ∧
    ((execute_command okO s0 { type := "new_tab", args := [("purpose", Val.str "search")] }).1.pages.length
        = s0.pages.length + 1 ∧
     (execute_command okO s0 { type := "new_tab", args := [("purpose", Val.str "search")] }).1.current_page_index
        = s0.pages.length ∧
     (execute_command okO s0 { type := "new_tab", args := [("purpose", Val.str "search")] }).2.status = "success" ∧
     (execute_command okO s0 { type := "new_tab", args := [("purpose", Val.str "search")] }).2.data.getField "tab_index"
        = some (Val.int s0.pages.length)) :=
  ⟨⟨rfl, rfl, rfl, rfl⟩,
   c4_new_tab_appends okO s0 [("purpose", Val.str "search")] rfl rfl rfl rfl⟩

/-- A valid `switch_tab` always sets `current_page_index`, whether or not
the subsequent `bring_to_front` raises. -/
theorem switch_tab_state (o : Oracle) (s : DaemonState) (i : Int)
    (hset : s.automationSet = true) (hin : 0 ≤ i ∧ i < (s.pages.length : Int)) :
    (execute_command o s { type := "switch_tab", args := [("index", Val.int i)] }).1
      = { s with current_page_index := i.toNat,
                 automationPage := some (s.pages.getD i.toNat dummyTab).page } := by
  rw [execute_command_fst _ _ _ hset, executeBody_switch_tab, switchTabCase_int, if_pos hin]
  rcases hb : o.bringToFront (s.pages.getD i.toNat dummyTab).page with e | _ <;> simp [hb]

/-- Reduction of `currentTabCase` when the registry is non-empty and the
current index is in bounds. -/
theorem currentTabCase_inbounds (o : Oracle) (s : DaemonState)
    (hne : s.pages.isEmpty = false) (hlt : s.current_page_index < s.pages.length) :
    currentTabCase o s =
      ({ s with pages := s.pages.set s.current_page_index
                  (refreshPass o (s.pages.getD s.current_page_index dummyTab)) },
       Except.ok { status := "success", message := "Current tab info",
                   data := Val.dict
                     [("tab_index", Val.int s.current_page_index),
                      ("title", Val.str (refreshPass o (s.pages.getD s.current_page_index dummyTab)).title),
                      ("url", Val.str (refreshPass o (s.pages.getD s.current_page_index dummyTab)).url),
                      ("purpose", (refreshPass o (s.pages.getD s.current_page_index dummyTab)).purposeVal)] }) := by
  unfold currentTabCase
  simp [hne, hlt]

/-- C7: for every valid tab index `i`, `switch_tab(i)` followed by
`current_tab()` yields a success whose `tab_index` is `i`, for every
oracle behaviour (even when foregrounding or the metadata refresh fail). -/
theorem c7_switch_then_current (o : Oracle) (s : DaemonState) (i : Int)
    (hset : s.automationSet = true) (h0 : 0 ≤ i) (hlt : i < (s.pages.length : Int)) :
    ((execute_command o
        ((execute_command o s { type := "switch_tab", args := [("index", Val.int i)] }).1)
        { type := "current_tab", args := [] }).2.status = "success") ∧
    ((execute_command o
        ((execute_command o s { type := "switch_tab", args := [("index", Val.int i)] }).1)
        { type := "current_tab", args := [] }).2.data.getField "tab_index"
      = some (Val.int i)) := by
  have hnat : i.toNat < s.pages.length := by
    have h : (i.toNat : Int) < (s.pages.length : Int) := by
      rw [Int.toNat_of_nonneg h0]; exact hlt
    exact_mod_cast h
  rw [switch_tab_state o s i hset ⟨h0, hlt⟩]
  set s1 : DaemonState :=
    { s with current_page_index := i.toNat,
             automationPage := some (s.pages.getD i.toNat dummyTab).page } with hs1
  have hne : s1.pages.isEmpty = false := by
    rcases hp : s1.pages with _ | ⟨t, ts⟩
    · exfalso
      have : s.pages = [] := hp
      rw [this] at hnat
      exact Nat.not_lt_zero _ hnat
    · rfl
  have hcur : s1.current_page_index < s1.pages.length := hnat
  have hb : executeBody o s1 { type := "current_tab", args := [] } = _ :=
    (executeBody_current_tab o s1 []).trans (currentTabCase_inbounds o s1 hne hcur)
  rw [execute_command_of_body_ok _ _ _ _ _ (by exact hset) hb]
  refine ⟨rfl, ?_⟩
  show Val.getField (Val.dict _) "tab_index" = _
  simp only [Val.getField, if_pos rfl]
  have : (s1.current_page_index : Int) = i := by
    show ((i.toNat : Nat) : Int) = i
    exact Int.toNat_of_nonneg h0
  rw [this]
  simp [getArg]

/-- Witness for C7: switching to tab 1 of the two-tab state and asking
`current_tab` reports index 1. -/
theorem c7_witness :
    (s2tabs.automationSet = true ∧ (0 : Int) ≤ 1 ∧ (1 : Int) < (s2tabs.pages.length : Int)) ∧
    (((execute_command deadO
        ((execute_command deadO s2tabs { type := "switch_tab", args := [("index", Val.int 1)] }).1)
        { type := "current_tab", args := [] }).2.status = "success") ∧
     ((execute_command deadO
        ((execute_command deadO s2tabs { type := "switch_tab", args := [("index", Val.int 1)] }).1)
        { type := "current_tab", args := [] }).2.data.getField "tab_index"
      = some (Val.int 1))) :=
  ⟨⟨rfl, by decide, by decide⟩,
   c7_switch_then_current deadO s2tabs 1 rfl (by decide) (by decide)⟩

/-- Reduction of `newTabCase` when the url navigation raises: the tab is
already appended and current before the exception escapes. -/
theorem newTabCase_goto_error (o : Oracle) (s : DaemonState) (u e : String)
    (hctx : s.contextSet = true) (hnp : o.newPage s.nextPage = Except.ok ())
    (hne : u ≠ "") (hg : o.goto s.nextPage (normalizeUrl u) = Except.error e) :
    newTabCase o s [("url", Val.str u)] =
      ({ s with pages := s.pages ++
                  [{ page := s.nextPage, title := "New Tab", url := "about:blank",
                     index := s.pages.length, purpose := some (Val.str "general") }],
                current_page_index := s.pages.length,
                automationPage := some s.nextPage, nextPage := s.nextPage + 1,
                gotoLog := s.gotoLog ++ [(s.nextPage, normalizeUrl u)] },
       Except.error e) := by
  have h0 : (u == "") = false := beq_eq_false_iff_ne.mpr hne
  unfold newTabCase
  simp only [hctx, if_true, hnp]
  simp only [getArg, truthy, if_pos rfl, h0, Bool.not_false, if_true]
  simp [hg, logGoto]

/-- C10: when `new_tab` is given a url and the navigation raises, the
dispatcher reports an error Result carrying the message, but the
registry mutation is not rolled back — the tab count has grown by one
and the new tab is current. -/
theorem c10_new_tab_not_atomic (o : Oracle) (s : DaemonState) (u e : String)
    (hset : s.automationSet = true) (hctx : s.contextSet = true)
    (hnp : o.newPage s.nextPage = Except.ok ()) (hne : u ≠ "")
    (hg : o.goto s.nextPage (normalizeUrl u) = Except.error e) :
    (execute_command o s { type := "new_tab", args := [("url", Val.str u)] }).2
        = { status := "error", message := e, data := Val.null } ∧
    (execute_command o s { type := "new_tab", args := [("url", Val.str u)] }).1.pages.length
        = s.pages.length + 1 ∧
    (execute_command o s { type := "new_tab", args := [("url", Val.str u)] }).1.current_page_index
        = s.pages.length := by
  have hb : executeBody o s { type := "new_tab", args := [("url", Val.str u)] } = _ :=
    (executeBody_new_tab o s _).trans (newTabCase_goto_error o s u e hctx hnp hne hg)
  rw [execute_command_of_body_error _ _ _ _ _ hset hb]
  exact ⟨rfl, by simp, rfl⟩

/-- Witness for C10: `new_tab` with url `bing.com` on an oracle whose
navigation fails. -/
theorem c10_witness :
    (s0.automationSet = true ∧ s0.contextSet = true ∧
     navFailO.newPage s0.nextPage = Except.ok () ∧ "bing.com" ≠ "" ∧
     navFailO.goto s0.nextPage (normalizeUrl "bing.com")
        = Except.error "net::ERR_NAME_NOT_RESOLVED") ∧
    ((execute_command navFailO s0 { type := "new_tab", args := [("url", Val.str "bing.com")] }).2
        = { status := "error", message := "net::ERR_NAME_NOT_RESOLVED", data := Val.null } ∧
     (execute_command navFailO s0 { type := "new_tab", args := [("url", Val.str "bing.com")] }).1.pages.length
        = s0.pages.length + 1 ∧
     (execute_command navFailO s0 { type := "new_tab", args := [("url", Val.str "bing.com")] }).1.current_page_index
        = s0.pages.length) :=
  ⟨⟨rfl, rfl, rfl, by decide, rfl⟩,
   c10_new_tab_not_atomic navFailO s0 "bing.com" "net::ERR_NAME_NOT_RESOLVED"
     rfl rfl rfl (by decide) rfl⟩


/-- Counterexample to C3: with the current tab dead (its `title()` call
raises), `current_tab` does not substitute the sentinel values; it
returns success with the cached metadata (`Example Domain`), not
`Closed Tab`. -/
theorem c3_counterexample :
    deadO.title 0 = Except.error "dead title" ∧
    (execute_command deadO sEx { type := "current_tab", args := [] }).2.status = "success" ∧
    (execute_command deadO sEx { type := "current_tab", args := [] }).2.data.getField "title"
        = some (Val.str "Example Domain") ∧
    ((execute_command deadO sEx { type := "current_tab", args := [] }).2.data.getField "title"
        ≠ some (Val.str "Closed Tab")) ∧
    (execute_command deadO sEx { type := "current_tab", args := [] }).2.data.getField "url"
        = some (Val.str "https://example.com") := by
  refine ⟨rfl, rfl, rfl, ?_, rfl⟩
  intro hcontra
  have h1 : some (Val.str "Example Domain") = some (Val.str "Closed Tab") := by
    rw [← hcontra]
    rfl
  have h2 := Option.some.inj h1
  injection h2 with h3
  exact absurd h3 (by decide)

/-- C3 (amended): when the refresh of the current tab fails,
`current_tab` never raises and returns a success Result carrying the
cached (possibly stale) title and url — it does not substitute the
`Closed Tab` / `about:blank` sentinels; with an empty registry it
returns the `No tabs available` error Result. -/
theorem c3_current_tab_keeps_cache (o : Oracle) (s : DaemonState)
    (hset : s.automationSet = true) :
    (s.pages = [] →
      execute_command o s { type := "current_tab", args := [] }
        = (s, { status := "error", message := "No tabs available", data := Val.null })) ∧
    (∀ t em, s.pages.get? s.current_page_index = some t →
      o.title t.page = Except.error em →
      (execute_command o s { type := "current_tab", args := [] }).2.status = "success" ∧
      (execute_command o s { type := "current_tab", args := [] }).2.data.getField "title"
          = some (Val.str t.title) ∧
      (execute_command o s { type := "current_tab", args := [] }).2.data.getField "url"
          = some (Val.str t.url)) := by
  constructor
  · intro hemp
    apply execute_command_of_body_ok _ _ _ _ _ hset
    rw [executeBody_current_tab]
    unfold currentTabCase
    simp [hemp]
  · intro t em hget hdead
    have hlt : s.current_page_index < s.pages.length := by
      have := List.get?_eq_some.mp hget
      exact this.1
    have hne : s.pages.isEmpty = false := by
      rcases hp : s.pages with _ | ⟨a, as⟩
      · rw [hp] at hlt
        exact absurd hlt (Nat.not_lt_zero _)
      · rfl
    have hgetD : s.pages.getD s.current_page_index dummyTab = t := by
      rw [List.getD_eq_getElem?_getD, ← List.get?_eq_getElem?, hget]
      rfl
    have hrp : refreshPass o (s.pages.getD s.current_page_index dummyTab) = t := by
      rw [hgetD]
      unfold refreshPass
      rw [hdead]
    have hb : executeBody o s { type := "current_tab", args := [] } = _ :=
      (executeBody_current_tab o s []).trans (currentTabCase_inbounds o s hne hlt)
    rw [execute_command_of_body_ok _ _ _ _ _ hset hb]
    rw [hrp]
    exact ⟨rfl, by simp [Val.getField, getArg], by simp [Val.getField, getArg]⟩

/-- Witness for the amended C3 on the stale-cache state with a dead
oracle. -/
theorem c3_witness :
    (sEx.automationSet = true ∧
     sEx.pages.get? sEx.current_page_index
        = some { page := 0, title := "Example Domain", url := "https://example.com",
                 index := 0, purpose := Option.none } ∧
     deadO.title 0 = Except.error "dead title") ∧
    ((execute_command deadO sEx { type := "current_tab", args := [] }).2.status = "success" ∧
     (execute_command deadO sEx { type := "current_tab", args := [] }).2.data.getField "title"
        = some (Val.str "Example Domain") ∧
     (execute_command deadO sEx { type := "current_tab", args := [] }).2.data.getField "url"
        = some (Val.str "https://example.com")) :=
  ⟨⟨rfl, rfl, rfl⟩,
   (c3_current_tab_keeps_cache deadO sEx rfl).2
     { page := 0, title := "Example Domain", url := "https://example.com",
       index := 0, purpose := Option.none } "dead title" rfl rfl⟩

/-- The entry reported by the `list_tabs` loop for the tab at overall
position `k + i`, where `i` indexes into the remaining suffix. -/
theorem listTabsAux_snd_get (o : Oracle) (cur : Nat) :
    ∀ (ts : List Tab) (k i : Nat) (t : Tab), ts.get? i = some t →
      (listTabsAux o cur k ts).2.get? i = some (listTabsStep o cur (k + i) t).2 := by
  intro ts
  induction ts with
  | nil =>
      intro k i t h
      simp at h
  | cons a as ih =>
      intro k i t h
      cases i with
      | zero =>
          simp at h
          subst h
          simp [listTabsAux]
      | succ n =>
          simp at h
          rw [← List.get?_eq_getElem?] at h
          have hrec := ih (k + 1) n t h
          have harith : k + 1 + n = k + (n + 1) := by omega
          rw [harith] at hrec
          simpa [listTabsAux] using hrec

/-- C8: `list_tabs` is total — it returns a success Result on every
registry state and oracle behaviour, and every tab whose metadata
refresh fails is reported with the sentinel entry
`title = "Closed Tab"`, `url = "about:blank"`, `active = false`. -/
theorem c8_list_tabs_total (o : Oracle) (s : DaemonState)
    (hset : s.automationSet = true) :
    (execute_command o s { type := "list_tabs", args := [] }).2.status = "success" ∧
    (∀ i t, s.pages.get? i = some t → refreshOk o t = false →
      ∃ vs, (execute_command o s { type := "list_tabs", args := [] }).2.data.getField "tabs"
              = some (Val.list vs) ∧
            vs.get? i = some (Val.dict
              [("index", Val.int i), ("title", Val.str "Closed Tab"),
               ("url", Val.str "about:blank"), ("purpose", t.purposeVal),
               ("active", Val.bool false)])) := by
  have hb : executeBody o s { type := "list_tabs", args := [] } =
      ({ s with pages := (listTabsAux o s.current_page_index 0 s.pages).1 },
       Except.ok { status := "success",
                   message := "Found " ++ toString (listTabsAux o s.current_page_index 0 s.pages).2.length ++ " tabs",
                   data := Val.dict [("tabs", Val.list (listTabsAux o s.current_page_index 0 s.pages).2),
                                     ("current_tab", Val.int s.current_page_index)] }) := by
    rw [executeBody_list_tabs]
    rfl
  rw [execute_command_of_body_ok _ _ _ _ _ hset hb]
  refine ⟨rfl, ?_⟩
  intro i t hget hfail
  refine ⟨(listTabsAux o s.current_page_index 0 s.pages).2, by simp [Val.getField, getArg], ?_⟩
  have h := listTabsAux_snd_get o s.current_page_index s.pages 0 i t hget
  rw [Nat.zero_add] at h
  rw [h]
  unfold listTabsStep
  rw [hfail]
  simp [sentinelEntry]

/-- Witness for C8: the started daemon with every page handle dead
reports its one tab with the sentinel entry. -/
theorem c8_witness :
    (s0.automationSet = true ∧
     s0.pages.get? 0 = some { page := 0, title := "New Tab", url := "about:blank",
                              index := 0, purpose := Option.none } ∧
     refreshOk deadO { page := 0, title := "New Tab", url := "about:blank",
                       index := 0, purpose := Option.none } = false) ∧
    ((execute_command deadO s0 { type := "list_tabs", args := [] }).2.status = "success" ∧
     ∃ vs, (execute_command deadO s0 { type := "list_tabs", args := [] }).2.data.getField "tabs"
             = some (Val.list vs) ∧
           vs.get? 0 = some (Val.dict
             [("index", Val.int 0), ("title", Val.str "Closed Tab"),
              ("url", Val.str "about:blank"),
              ("purpose", Tab.purposeVal { page := 0, title := "New Tab", url := "about:blank",
                                           index := 0, purpose := Option.none }),
              ("active", Val.bool false)])) :=
  ⟨⟨rfl, rfl, rfl⟩,
   ⟨(c8_list_tabs_total deadO s0 rfl).1,
    (c8_list_tabs_total deadO s0 rfl).2 0
      { page := 0, title := "New Tab", url := "about:blank", index := 0, purpose := Option.none }
      rfl rfl⟩⟩

/-- Every normally returned result of the `navigate` case has status success. -/
theorem navigateCase_status (o : Oracle) (s : DaemonState) (args : List (String × Val))
    (s1 : DaemonState) (r : CmdResult) (h : navigateCase o s args = (s1, Except.ok r)) :
    r.status = "success" := by
  unfold navigateCase at h
  split at h
  · simp only [Prod.mk.injEq, Except.ok.injEq] at h
    rw [← h.2]
  · simp_all

/-- Every normally returned result of the `title` case has status success. -/
theorem titleCase_status (o : Oracle) (s : DaemonState)
    (s1 : DaemonState) (r : CmdResult) (h : titleCase o s = (s1, Except.ok r)) :
    r.status = "success" := by
  unfold titleCase at h
  split at h
  · simp_all
  · split at h
    · simp_all
    · simp only [Prod.mk.injEq, Except.ok.injEq] at h
      rw [← h.2]

/-- Every normally returned result of the `new_tab` case has status success. -/
theorem newTabCase_status (o : Oracle) (s : DaemonState) (args : List (String × Val))
    (s1 : DaemonState) (r : CmdResult) (h : newTabCase o s args = (s1, Except.ok r)) :
    r.status = "success" := by
  unfold newTabCase at h
  split at h
  · split at h
    · simp_all
    · split at h
      · split at h
        · dsimp only at h
          split at h
          · simp_all
          · split at h
            · simp_all
            · simp only [Prod.mk.injEq, Except.ok.injEq] at h
              rw [← h.2]
        · simp_all
      · simp only [Prod.mk.injEq, Except.ok.injEq] at h
        rw [← h.2]
  · simp_all

/-- Every normally returned result of the `switch_tab` case has status
success or error. -/
theorem switchTabCase_status (o : Oracle) (s : DaemonState) (args : List (String × Val))
    (s1 : DaemonState) (r : CmdResult) (h : switchTabCase o s args = (s1, Except.ok r)) :
    r.status = "success" ∨ r.status = "error" := by
  unfold switchTabCase at h
  split at h
  · split at h
    · dsimp only at h
      split at h
      · simp_all
      · simp only [Prod.mk.injEq, Except.ok.injEq] at h
        exact Or.inl (by rw [← h.2])
    · simp only [Prod.mk.injEq, Except.ok.injEq] at h
      exact Or.inr (by rw [← h.2])
  · simp_all

/-- The result of the `list_tabs` case always has status success. -/
theorem listTabsCase_status (o : Oracle) (s : DaemonState)
    (s1 : DaemonState) (r : CmdResult) (h : listTabsCase o s = (s1, Except.ok r)) :
    r.status = "success" := by
  unfold listTabsCase at h
  simp only [Prod.mk.injEq, Except.ok.injEq] at h
  rw [← h.2]

/-- Every normally returned result of the `current_tab` case has status
success or error. -/
theorem currentTabCase_status (o : Oracle) (s : DaemonState)
    (s1 : DaemonState) (r : CmdResult) (h : currentTabCase o s = (s1, Except.ok r)) :
    r.status = "success" ∨ r.status = "error" := by
  unfold currentTabCase at h
  split at h
  · simp only [Prod.mk.injEq, Except.ok.injEq] at h
    exact Or.inr (by rw [← h.2])
  · split at h
    · simp only [Prod.mk.injEq, Except.ok.injEq] at h
      exact Or.inl (by rw [← h.2])
    · simp_all

/-- Every result the dispatch body returns normally has status success
or error. -/
theorem executeBody_status (o : Oracle) (s : DaemonState) (cmd : Command)
    (s1 : DaemonState) (r : CmdResult)
    (h : executeBody o s cmd = (s1, Except.ok r)) :
    r.status = "success" ∨ r.status = "error" := by
  unfold executeBody at h
  by_cases h1 : cmd.type = "navigate"
  · rw [if_pos h1] at h
    exact Or.inl (navigateCase_status o s cmd.args s1 r h)
  rw [if_neg h1] at h
  by_cases h2 : cmd.type = "click"
  · rw [if_pos h2] at h
    simp only [Prod.mk.injEq, Except.ok.injEq] at h
    exact Or.inl (by rw [← h.2])
  rw [if_neg h2] at h
  by_cases h3 : cmd.type = "fill"
  · rw [if_pos h3] at h
    simp only [Prod.mk.injEq, Except.ok.injEq] at h
    exact Or.inl (by rw [← h.2])
  rw [if_neg h3] at h
  by_cases h4 : cmd.type = "screenshot"
  · rw [if_pos h4] at h
    simp only [Prod.mk.injEq, Except.ok.injEq] at h
    exact Or.inl (by rw [← h.2])
  rw [if_neg h4] at h
  by_cases h5 : cmd.type = "title"
  · rw [if_pos h5] at h
    exact Or.inl (titleCase_status o s s1 r h)
  rw [if_neg h5] at h
  by_cases h6 : cmd.type = "wait"
  · rw [if_pos h6] at h
    simp only [Prod.mk.injEq, Except.ok.injEq] at h
    exact Or.inl (by rw [← h.2])
  rw [if_neg h6] at h
  by_cases h7 : cmd.type = "js"
  · rw [if_pos h7] at h
    simp only [Prod.mk.injEq, Except.ok.injEq] at h
    exact Or.inl (by rw [← h.2])
  rw [if_neg h7] at h
  by_cases h8 : cmd.type = "new_tab"
  · rw [if_pos h8] at h
    exact Or.inl (newTabCase_status o s cmd.args s1 r h)
  rw [if_neg h8] at h
  by_cases h9 : cmd.type = "switch_tab"
  · rw [if_pos h9] at h
    exact switchTabCase_status o s cmd.args s1 r h
  rw [if_neg h9] at h
  by_cases h10 : cmd.type = "list_tabs"
  · rw [if_pos h10] at h
    exact Or.inl (listTabsCase_status o s s1 r h)
  rw [if_neg h10] at h
  by_cases h11 : cmd.type = "current_tab"
  · rw [if_pos h11] at h
    exact currentTabCase_status o s s1 r h
  rw [if_neg h11] at h
  by_cases h12 : cmd.type = "stop"
  · rw [if_pos h12] at h
    simp only [Prod.mk.injEq, Except.ok.injEq] at h
    exact Or.inl (by rw [← h.2])
  rw [if_neg h12] at h
  simp only [Prod.mk.injEq, Except.ok.injEq] at h
  exact Or.inr (by rw [← h.2])

/-- Dispatch reduction: a `click` command wraps `click_element` in an
unconditional success envelope. -/
theorem executeBody_click (o : Oracle) (s : DaemonState) (args : List (String × Val)) :
    executeBody o s { type := "click", args := args } =
      (s, Except.ok { status := "success", message := "Clicked",
                      data := click_element o s (getArg args "selector") }) := rfl

/-- Counterexample to C1: a `click` whose underlying delegate call on
the page fails does not produce an error Result — the dispatcher reports
status success (the failure is only recorded inside `data`). -/
theorem c1_counterexample :
    deadO.click 0 "#btn" = Except.error "dead click" ∧
    s0.automationPage = some 0 ∧
    (execute_command deadO s0 { type := "click", args := [("selector", Val.str "#btn")] }).2.status
      = "success" ∧
    (execute_command deadO s0 { type := "click", args := [("selector", Val.str "#btn")] }).2.data.getField "success"
      = some (Val.bool false) :=
  ⟨rfl, rfl, rfl, rfl⟩

/-- Dispatch reduction: a `fill` command wraps `fill_form` in an
unconditional success envelope. -/
theorem executeBody_fill (o : Oracle) (s : DaemonState) (args : List (String × Val)) :
    executeBody o s { type := "fill", args := args } =
      (s, Except.ok { status := "success", message := "Filled",
                      data := fill_form o s (getArg args "selector") (getArg args "text") }) := rfl

/-- Dispatch reduction: a `screenshot` command wraps `take_screenshot`
in an unconditional success envelope. -/
theorem executeBody_screenshot (o : Oracle) (s : DaemonState) (args : List (String × Val)) :
    executeBody o s { type := "screenshot", args := args } =
      (s, Except.ok { status := "success", message := "Screenshot saved",
                      data := take_screenshot o s
                        ((getArg args "filename").getD (Val.str "screenshot.png")) }) := rfl

/-- Dispatch reduction: a `wait` command wraps `wait_for_element` in an
unconditional success envelope. -/
theorem executeBody_wait (o : Oracle) (s : DaemonState) (args : List (String × Val)) :
    executeBody o s { type := "wait", args := args } =
      (s, Except.ok { status := "success", message := "Waited",
                      data := wait_for_element o s (getArg args "selector") }) := rfl

/-- Dispatch reduction: a `js` command wraps `execute_javascript` in an
unconditional success envelope. -/
theorem executeBody_js (o : Oracle) (s : DaemonState) (args : List (String × Val)) :
    executeBody o s { type := "js", args := args } =
      (s, Except.ok { status := "success", message := "JavaScript executed",
                      data := execute_javascript o s (getArg args "script") }) := rfl

/-- C1 (amended): the dispatcher never lets anything escape the dispatch
boundary — every command yields a structured Result whose status is
success or error; an exception reaching the boundary is converted to an
error Result carrying its message; and each of the six page delegates
(navigate, click, fill, screenshot, wait, js) swallows its own failure
inside the automation layer, so the dispatcher reports a success Result
whose data records the failure instead of an error Result. -/
theorem c1_dispatch_containment :
    (∀ (o : Oracle) (s : DaemonState) (cmd : Command),
      (execute_command o s cmd).2.status = "success" ∨
      (execute_command o s cmd).2.status = "error") ∧
    (∀ (o : Oracle) (s : DaemonState) (cmd : Command) (s1 : DaemonState) (e : String),
      s.automationSet = true → executeBody o s cmd = (s1, Except.error e) →
      (execute_command o s cmd).2 = { status := "error", message := e, data := Val.null }) ∧
    (∀ (o : Oracle) (s : DaemonState) (p : Nat) (u e : String),
      s.automationSet = true → s.automationPage = some p →
      o.goto p (normalizeUrl u) = Except.error e →
      (execute_command o s { type := "navigate", args := [("url", Val.str u)] }).2
        = { status := "success", message := "Navigated to " ++ normalizeUrl u,
            data := Val.dict [("success", Val.bool false), ("error", Val.str e)] }) ∧
    (∀ (o : Oracle) (s : DaemonState) (p : Nat) (sel e : String),
      s.automationSet = true → s.automationPage = some p →
      o.click p sel = Except.error e →
      (execute_command o s { type := "click", args := [("selector", Val.str sel)] }).2
        = { status := "success", message := "Clicked",
            data := Val.dict [("success", Val.bool false), ("error", Val.str e)] }) ∧
    (∀ (o : Oracle) (s : DaemonState) (p : Nat) (sel txt e : String),
      s.automationSet = true → s.automationPage = some p →
      o.fill p sel txt = Except.error e →
      (execute_command o s
          { type := "fill", args := [("selector", Val.str sel), ("text", Val.str txt)] }).2
        = { status := "success", message := "Filled",
            data := Val.dict [("success", Val.bool false), ("error", Val.str e)] }) ∧
    (∀ (o : Oracle) (s : DaemonState) (p : Nat) (f e : String),
      s.automationSet = true → s.automationPage = some p →
      o.screenshot p f = Except.error e →
      (execute_command o s { type := "screenshot", args := [("filename", Val.str f)] }).2
        = { status := "success", message := "Screenshot saved",
            data := Val.dict [("success", Val.bool false), ("error", Val.str e)] }) ∧
    (∀ (o : Oracle) (s : DaemonState) (p : Nat) (sel e : String),
      s.automationSet = true → s.automationPage = some p →
      o.waitFor p sel = Except.error e →
      (execute_command o s { type := "wait", args := [("selector", Val.str sel)] }).2
        = { status := "success", message := "Waited",
            data := Val.dict [("success", Val.bool false), ("error", Val.str e)] }) ∧
    (∀ (o : Oracle) (s : DaemonState) (p : Nat) (sc e : String),
      s.automationSet = true → s.automationPage = some p →
      o.evaluate p sc = Except.error e →
      (execute_command o s { type := "js", args := [("script", Val.str sc)] }).2
        = { status := "success", message := "JavaScript executed",
            data := Val.dict [("success", Val.bool false), ("error", Val.str e)] }) := by
  refine ⟨?_, ?_, ?_, ?_, ?_, ?_, ?_, ?_⟩
  · intro o s cmd
    unfold execute_command
    cases hset : s.automationSet
    · simp only [Bool.false_eq_true, if_false]
      exact Or.inr trivial
    · simp only [if_true]
      rcases hb : executeBody o s cmd with ⟨s2, r2⟩
      cases r2 with
      | ok rr =>
          simpa using executeBody_status o s cmd s2 rr hb
      | error e =>
          exact Or.inr rfl
  · intro o s cmd s1 e hset hb
    rw [execute_command_of_body_error _ _ _ _ _ hset hb]
  · intro o s p u e hset hpage hgoto
    have hnav : navigate_to o s (normalizeUrl u)
        = (logGoto s p (normalizeUrl u),
           Val.dict [("success", Val.bool false), ("error", Val.str e)]) := by
      unfold navigate_to
      rw [hpage]
      dsimp only
      simp [hgoto]
    have hb : executeBody o s { type := "navigate", args := [("url", Val.str u)] }
        = (logGoto s p (normalizeUrl u),
           Except.ok { status := "success", message := "Navigated to " ++ normalizeUrl u,
                       data := Val.dict [("success", Val.bool false), ("error", Val.str e)] }) := by
      rw [executeBody_navigate, navigateCase_url, hnav]
    rw [execute_command_of_body_ok _ _ _ _ _ hset hb]
  · intro o s p sel e hset hpage hclick
    have hc : click_element o s (getArg [("selector", Val.str sel)] "selector")
        = Val.dict [("success", Val.bool false), ("error", Val.str e)] := by
      unfold click_element
      rw [hpage]
      simp [getArg, hclick]
    have hb := executeBody_click o s [("selector", Val.str sel)]
    rw [hc] at hb
    rw [execute_command_of_body_ok _ _ _ _ _ hset hb]
  · intro o s p sel txt e hset hpage hfill
    have hc : fill_form o s
          (getArg [("selector", Val.str sel), ("text", Val.str txt)] "selector")
          (getArg [("selector", Val.str sel), ("text", Val.str txt)] "text")
        = Val.dict [("success", Val.bool false), ("error", Val.str e)] := by
      unfold fill_form
      rw [hpage]
      simp [getArg, hfill]
    have hb := executeBody_fill o s [("selector", Val.str sel), ("text", Val.str txt)]
    rw [hc] at hb
    rw [execute_command_of_body_ok _ _ _ _ _ hset hb]
  · intro o s p f e hset hpage hshot
    have hc : take_screenshot o s
          ((getArg [("filename", Val.str f)] "filename").getD (Val.str "screenshot.png"))
        = Val.dict [("success", Val.bool false), ("error", Val.str e)] := by
      unfold take_screenshot
      rw [hpage]
      simp [getArg, hshot]
    have hb := executeBody_screenshot o s [("filename", Val.str f)]
    rw [hc] at hb
    rw [execute_command_of_body_ok _ _ _ _ _ hset hb]
  · intro o s p sel e hset hpage hwait
    have hc : wait_for_element o s (getArg [("selector", Val.str sel)] "selector")
        = Val.dict [("success", Val.bool false), ("error", Val.str e)] := by
      unfold wait_for_element
      rw [hpage]
      simp [getArg, hwait]
    have hb := executeBody_wait o s [("selector", Val.str sel)]
    rw [hc] at hb
    rw [execute_command_of_body_ok _ _ _ _ _ hset hb]
  · intro o s p sc e hset hpage hjs
    have hc : execute_javascript o s (getArg [("script", Val.str sc)] "script")
        = Val.dict [("success", Val.bool false), ("error", Val.str e)] := by
      unfold execute_javascript
      rw [hpage]
      simp [getArg, hjs]
    have hb := executeBody_js o s [("script", Val.str sc)]
    rw [hc] at hb
    rw [execute_command_of_body_ok _ _ _ _ _ hset hb]

/-- Witness for the amended C1: containment at a concrete command, the
boundary conversion for a raising `title` call, and the swallowed
failures of all six page delegates on the dead oracle. -/
theorem c1_witness :
    ((execute_command deadO s0 { type := "title", args := [] }).2.status = "success" ∨
     (execute_command deadO s0 { type := "title", args := [] }).2.status = "error") ∧
    (s0.automationSet = true ∧
     executeBody deadO s0 { type := "title", args := [] } = (s0, Except.error "dead title") ∧
     (execute_command deadO s0 { type := "title", args := [] }).2
        = { status := "error", message := "dead title", data := Val.null }) ∧
    (s0.automationPage = some 0 ∧
     deadO.goto 0 (normalizeUrl "example.com") = Except.error "dead goto" ∧
     (execute_command deadO s0 { type := "navigate", args := [("url", Val.str "example.com")] }).2
        = { status := "success", message := "Navigated to " ++ normalizeUrl "example.com",
            data := Val.dict [("success", Val.bool false), ("error", Val.str "dead goto")] }) ∧
    (deadO.click 0 "#btn" = Except.error "dead click" ∧
     (execute_command deadO s0 { type := "click", args := [("selector", Val.str "#btn")] }).2
        = { status := "success", message := "Clicked",
            data := Val.dict [("success", Val.bool false), ("error", Val.str "dead click")] }) ∧
    (deadO.fill 0 "#name" "x" = Except.error "dead fill" ∧
     (execute_command deadO s0
         { type := "fill", args := [("selector", Val.str "#name"), ("text", Val.str "x")] }).2
        = { status := "success", message := "Filled",
            data := Val.dict [("success", Val.bool false), ("error", Val.str "dead fill")] }) ∧
    (deadO.screenshot 0 "shot.png" = Except.error "dead shot" ∧
     (execute_command deadO s0 { type := "screenshot", args := [("filename", Val.str "shot.png")] }).2
        = { status := "success", message := "Screenshot saved",
            data := Val.dict [("success", Val.bool false), ("error", Val.str "dead shot")] }) ∧
    (deadO.waitFor 0 "#w" = Except.error "dead wait" ∧
     (execute_command deadO s0 { type := "wait", args := [("selector", Val.str "#w")] }).2
        = { status := "success", message := "Waited",
            data := Val.dict [("success", Val.bool false), ("error", Val.str "dead wait")] }) ∧
    (deadO.evaluate 0 "1+1" = Except.error "dead js" ∧
     (execute_command deadO s0 { type := "js", args := [("script", Val.str "1+1")] }).2
        = { status := "success", message := "JavaScript executed",
            data := Val.dict [("success", Val.bool false), ("error", Val.str "dead js")] }) :=
  ⟨c1_dispatch_containment.1 deadO s0 { type := "title", args := [] },
   ⟨rfl, rfl,
    c1_dispatch_containment.2.1 deadO s0 { type := "title", args := [] } s0 "dead title" rfl rfl⟩,
   ⟨rfl, rfl,
    c1_dispatch_containment.2.2.1 deadO s0 0 "example.com" "dead goto" rfl rfl rfl⟩,
   ⟨rfl,
    c1_dispatch_containment.2.2.2.1 deadO s0 0 "#btn" "dead click" rfl rfl rfl⟩,
   ⟨rfl,
    c1_dispatch_containment.2.2.2.2.1 deadO s0 0 "#name" "x" "dead fill" rfl rfl rfl⟩,
   ⟨rfl,
    c1_dispatch_containment.2.2.2.2.2.1 deadO s0 0 "shot.png" "dead shot" rfl rfl rfl⟩,
   ⟨rfl,
    c1_dispatch_containment.2.2.2.2.2.2.1 deadO s0 0 "#w" "dead wait" rfl rfl rfl⟩,
   ⟨rfl,
    c1_dispatch_containment.2.2.2.2.2.2.2 deadO s0 0 "1+1" "dead js" rfl rfl rfl⟩⟩

/-- Counterexample to C2: when the browser fails to launch, the daemon
records the error but does not transition to STOPPED — `running` is
still true and the loop still polls, dispatches a command and writes a
result for it. -/
theorem c2_counterexample :
    failO.startBrowser = Except.error "browser launch failed" ∧
    (start_browser failO initState).2.status = "error" ∧
    (start_browser failO initState).1.running = true ∧
    (runLoop failO (start_browser failO initState).1 [{ type := "title", args := [] }]).2
      = [{ status := "error", message := "AttributeError: NoneType object has no attribute title",
           data := Val.null }] :=
  ⟨rfl, rfl, rfl, rfl⟩

/-- C2 (amended): a failed STARTING phase records an error Result with
the launch failure message and leaves the registry empty, but the daemon
does not transition to STOPPED: `running` stays true and the poll loop
still dispatches incoming commands. -/
theorem c2_startup_failure_keeps_polling (o : Oracle) (e : String)
    (h : o.startBrowser = Except.error e) :
    (start_browser o initState).2 = { status := "error", message := e, data := Val.null } ∧
    (start_browser o initState).1.running = true ∧
    (start_browser o initState).1.pages = [] ∧
    (∀ c, c.type ≠ "stop" →
      (runLoop o (start_browser o initState).1 [c]).2
        = [(execute_command o (start_browser o initState).1 c).2]) := by
  have hs : start_browser o initState
      = ({ initState with automationSet := true },
         { status := "error", message := e, data := Val.null }) := by
    unfold start_browser
    rw [h]
  rw [hs]
  refine ⟨rfl, rfl, rfl, ?_⟩
  intro c hc
  unfold runLoop
  rw [if_neg hc]
  simp [runLoop, initState]

/-- Witness for the amended C2 with a concrete launch failure. -/
theorem c2_witness :
    (failO.startBrowser = Except.error "browser launch failed") ∧
    ((start_browser failO initState).2
        = { status := "error", message := "browser launch failed", data := Val.null } ∧
     (start_browser failO initState).1.running = true ∧
     (start_browser failO initState).1.pages = [] ∧
     (∀ c, c.type ≠ "stop" →
       (runLoop failO (start_browser failO initState).1 [c]).2
         = [(execute_command failO (start_browser failO initState).1 c).2])) :=
  ⟨rfl, c2_startup_failure_keeps_polling failO "browser launch failed" rfl⟩

/-- Every list of tabs evolves trivially into itself. -/
theorem preservesTabs_refl (ps : List Tab) : PreservesTabs ps ps :=
  ⟨Nat.le_refl _, fun _ t h => ⟨t, h, rfl⟩⟩

/-- A state with the same tab list and current index inherits the
registry invariant. -/
theorem good_view (s s' : DaemonState) (hinv : RegistryInv s)
    (hp : s'.pages = s.pages) (hc : s'.current_page_index = s.current_page_index) :
    RegistryInv s' ∧ PreservesTabs s.pages s'.pages := by
  refine ⟨⟨?_, ?_⟩, ?_⟩
  · intro h
    rw [hp, hc]
    exact hinv.1 (hp ▸ h)
  · intro i t h
    rw [hp] at h
    exact hinv.2 i t h
  · rw [hp]
    exact preservesTabs_refl _

/-- Appending one tab whose stored index is the old length preserves the
registry invariant and is an append-only step, provided the new tab
becomes current. -/
theorem good_append (s s' : DaemonState) (tb : Tab) (hinv : RegistryInv s)
    (hp : s'.pages = s.pages ++ [tb]) (hidx : tb.index = s.pages.length)
    (hc : s'.current_page_index = s.pages.length) :
    RegistryInv s' ∧ PreservesTabs s.pages s'.pages := by
  refine ⟨⟨?_, ?_⟩, ?_, ?_⟩
  · intro _
    rw [hp, hc]
    simp
  · intro i t hget
    rw [hp] at hget
    rcases Nat.lt_trichotomy i s.pages.length with hlt | heq | hgt
    · rw [List.get?_append hlt] at hget
      exact hinv.2 i t hget
    · subst heq
      rw [List.get?_concat_length] at hget
      injection hget with h2
      rw [← h2]
      exact hidx
    · have hnone : (s.pages ++ [tb]).get? i = Option.none := by
        rw [List.get?_eq_none]
        simp only [List.length_append, List.length_singleton]
        omega
      rw [hnone] at hget
      cases hget
  · rw [hp]
    simp
  · intro i t hget
    have hlt : i < s.pages.length := (List.get?_eq_some.mp hget).1
    refine ⟨t, ?_, rfl⟩
    rw [hp, List.get?_append hlt]
    exact hget

/-- The current index does not change across a `goto` log entry or the
best-effort refresh map, so replacing the list with its refreshed image
preserves the invariant. -/
theorem good_map (o : Oracle) (s s' : DaemonState) (hinv : RegistryInv s)
    (hp : s'.pages = s.pages.map (refreshPass o))
    (hc : s'.current_page_index = s.current_page_index)
    (hidx : ∀ t : Tab, (refreshPass o t).index = t.index) :
    RegistryInv s' ∧ PreservesTabs s.pages s'.pages := by
  refine ⟨⟨?_, ?_⟩, ?_, ?_⟩
  · intro h
    rw [hp, hc, List.length_map]
    apply hinv.1
    intro hsp
    apply h
    rw [hp, hsp]
    rfl
  · intro i t hget
    rw [hp, List.get?_map] at hget
    rcases hg : s.pages.get? i with _ | t0
    · rw [hg] at hget
      cases hget
    · rw [hg] at hget
      injection hget with h2
      rw [← h2, hidx t0]
      exact hinv.2 i t0 hg
  · rw [hp, List.length_map]
  · intro i t hget
    refine ⟨refreshPass o t, ?_, hidx t⟩
    rw [hp, List.get?_map, hget]
    rfl

/-- Replacing the current tab in place with an index-preserving refresh
preserves the invariant. -/
theorem good_set (o : Oracle) (s s' : DaemonState) (t : Tab) (hinv : RegistryInv s)
    (hget : s.pages.get? s.current_page_index = some t)
    (hp : s'.pages = s.pages.set s.current_page_index (refreshPass o t))
    (hc : s'.current_page_index = s.current_page_index)
    (hidx : (refreshPass o t).index = t.index) :
    RegistryInv s' ∧ PreservesTabs s.pages s'.pages := by
  have hlt : s.current_page_index < s.pages.length := (List.get?_eq_some.mp hget).1
  refine ⟨⟨?_, ?_⟩, ?_, ?_⟩
  · intro _
    rw [hp, hc, List.length_set]
    exact hlt
  · intro i t2 hget2
    rw [hp] at hget2
    by_cases hi : s.current_page_index = i
    · subst hi
      rw [List.get?_set_eq_of_lt _ hlt] at hget2
      injection hget2 with h2
      rw [← h2, hidx]
      exact hinv.2 _ t hget
    · rw [List.get?_set_ne _ _ hi] at hget2
      exact hinv.2 i t2 hget2
  · rw [hp, List.length_set]
  · intro i t2 hget2
    by_cases hi : s.current_page_index = i
    · subst hi
      have h2 : t2 = t := by
        rw [hget] at hget2
        injection hget2 with h3
        rw [h3]
      refine ⟨refreshPass o t, ?_, by rw [hidx, h2]⟩
      rw [hp, List.get?_set_eq_of_lt _ hlt]
    · refine ⟨t2, ?_, rfl⟩
      rw [hp, List.get?_set_ne _ _ hi]
      exact hget2

/-- Moving the current index to any in-bounds position preserves the
invariant. -/
theorem good_switch (s s' : DaemonState) (j : Nat) (hinv : RegistryInv s)
    (hp : s'.pages = s.pages) (hc : s'.current_page_index = j)
    (hj : j < s.pages.length) :
    RegistryInv s' ∧ PreservesTabs s.pages s'.pages := by
  refine ⟨⟨?_, ?_⟩, ?_⟩
  · intro _
    rw [hp, hc]
    exact hj
  · intro i t h
    rw [hp] at h
    exact hinv.2 i t h
  · rw [hp]
    exact preservesTabs_refl _

/-- The best-effort refresh never touches a tab's stored index. -/
theorem refreshPass_index (o : Oracle) (t : Tab) : (refreshPass o t).index = t.index := by
  unfold refreshPass
  rcases h1 : o.title t.page with e | ti
  · rfl
  · simp only
    rcases h2 : o.pageUrl t.page with e | u <;> simp [h2]

/-- The stored-tab component of one `list_tabs` iteration is the
refreshed tab. -/
theorem listTabsStep_fst (o : Oracle) (cur i : Nat) (t : Tab) :
    (listTabsStep o cur i t).1 = refreshPass o t := by
  unfold listTabsStep
  split <;> rfl

/-- The stored tab list after `list_tabs` is the refreshed image of the
old list. -/
theorem listTabsAux_fst (o : Oracle) (cur : Nat) :
    ∀ (ts : List Tab) (k : Nat), (listTabsAux o cur k ts).1 = ts.map (refreshPass o) := by
  intro ts
  induction ts with
  | nil => intro k; rfl
  | cons a as ih =>
      intro k
      simp [listTabsAux, listTabsStep_fst, ih (k + 1)]

/-- The `navigate` case never touches the tab list or the current index. -/
theorem navigateCase_view (o : Oracle) (s : DaemonState) (args : List (String × Val)) :
    (navigateCase o s args).1.pages = s.pages ∧
    (navigateCase o s args).1.current_page_index = s.current_page_index := by
  unfold navigateCase
  split
  · unfold navigate_to
    rcases hpg : s.automationPage with _ | p
    · simp [hpg]
    · simp only [hpg]
      rcases hg : o.goto p _ with e | _
      · simp [hg, logGoto]
      · rcases ht : o.title p with e | t <;> simp [hg, ht, logGoto]
  · exact ⟨rfl, rfl⟩

/-- The `title` case never changes the state. -/
theorem titleCase_fst (o : Oracle) (s : DaemonState) : (titleCase o s).1 = s := by
  unfold titleCase
  rcases hpg : s.automationPage with _ | p
  · rfl
  · rcases ht : o.title p with e | t <;> simp [ht]

/-- The `new_tab` case preserves the registry invariant and is
append-only, on every branch including the raising ones. -/
theorem newTabCase_good (o : Oracle) (s : DaemonState) (args : List (String × Val))
    (hinv : RegistryInv s) :
    RegistryInv (newTabCase o s args).1 ∧
    PreservesTabs s.pages (newTabCase o s args).1.pages := by
  unfold newTabCase
  split
  · split
    · exact ⟨hinv, preservesTabs_refl _⟩
    · dsimp only
      split
      · split
        · split
          · exact good_append s _ _ hinv rfl rfl rfl
          · split
            · exact good_append s _ _ hinv rfl rfl rfl
            · simp only [logGoto]
              rw [List.dropLast_concat]
              exact good_append s _ _ hinv rfl rfl rfl
        · exact good_append s _ _ hinv rfl rfl rfl
      · exact good_append s _ _ hinv rfl rfl rfl
  · exact ⟨hinv, preservesTabs_refl _⟩

/-- The `switch_tab` case preserves the registry invariant on every
branch. -/
theorem switchTabCase_good (o : Oracle) (s : DaemonState) (args : List (String × Val))
    (hinv : RegistryInv s) :
    RegistryInv (switchTabCase o s args).1 ∧
    PreservesTabs s.pages (switchTabCase o s args).1.pages := by
  unfold switchTabCase
  split
  · rename_i ti heq
    split
    · dsimp only
      split
      · exact good_switch s _ ti.toNat hinv rfl rfl (by omega)
      · exact good_switch s _ ti.toNat hinv rfl rfl (by omega)
    · exact ⟨hinv, preservesTabs_refl _⟩
  · exact ⟨hinv, preservesTabs_refl _⟩

/-- The `current_tab` case preserves the registry invariant on every
branch. -/
theorem currentTabCase_good (o : Oracle) (s : DaemonState) (hinv : RegistryInv s) :
    RegistryInv (currentTabCase o s).1 ∧
    PreservesTabs s.pages (currentTabCase o s).1.pages := by
  unfold currentTabCase
  split
  · exact ⟨hinv, preservesTabs_refl _⟩
  · split
    · rename_i hne hlt
      have hget : s.pages.get? s.current_page_index
          = some (s.pages.getD s.current_page_index dummyTab) := by
        rw [List.getD_eq_getElem?_getD, ← List.get?_eq_getElem?]
        rcases hh : s.pages.get? s.current_page_index with _ | t
        · rw [List.get?_eq_none] at hh
          omega
        · rfl
      exact good_set o s _ _ hinv hget rfl rfl (refreshPass_index o _)
    · exact ⟨hinv, preservesTabs_refl _⟩

/-- The `list_tabs` case preserves the registry invariant. -/
theorem listTabsCase_good (o : Oracle) (s : DaemonState) (hinv : RegistryInv s) :
    RegistryInv (listTabsCase o s).1 ∧
    PreservesTabs s.pages (listTabsCase o s).1.pages := by
  unfold listTabsCase
  exact good_map o s _ hinv (listTabsAux_fst o s.current_page_index s.pages 0) rfl
    (refreshPass_index o)

/-- C9: every dispatched command preserves the registry invariant — when
the tab list is non-empty the current index is in bounds and every
stored tab index equals its position — and evolves the tab list
append-only (no position is removed and surviving indices are stable). -/
theorem c9_registry_invariant (o : Oracle) (s : DaemonState) (cmd : Command)
    (hinv : RegistryInv s) :
    RegistryInv (execute_command o s cmd).1 ∧
    PreservesTabs s.pages (execute_command o s cmd).1.pages := by
  cases hset : s.automationSet
  · unfold execute_command
    rw [hset]
    simp only [Bool.false_eq_true, if_false]
    exact ⟨hinv, preservesTabs_refl _⟩
  · rw [execute_command_fst o s cmd hset]
    unfold executeBody
    by_cases h1 : cmd.type = "navigate"
    · rw [if_pos h1]
      have hv := navigateCase_view o s cmd.args
      exact good_view s _ hinv hv.1 hv.2
    rw [if_neg h1]
    by_cases h2 : cmd.type = "click"
    · rw [if_pos h2]
      exact ⟨hinv, preservesTabs_refl _⟩
    rw [if_neg h2]
    by_cases h3 : cmd.type = "fill"
    · rw [if_pos h3]
      exact ⟨hinv, preservesTabs_refl _⟩
    rw [if_neg h3]
    by_cases h4 : cmd.type = "screenshot"
    · rw [if_pos h4]
      exact ⟨hinv, preservesTabs_refl _⟩
    rw [if_neg h4]
    by_cases h5 : cmd.type = "title"
    · rw [if_pos h5]
      rw [titleCase_fst o s]
      exact ⟨hinv, preservesTabs_refl _⟩
    rw [if_neg h5]
    by_cases h6 : cmd.type = "wait"
    · rw [if_pos h6]
      exact ⟨hinv, preservesTabs_refl _⟩
    rw [if_neg h6]
    by_cases h7 : cmd.type = "js"
    · rw [if_pos h7]
      exact ⟨hinv, preservesTabs_refl _⟩
    rw [if_neg h7]
    by_cases h8 : cmd.type = "new_tab"
    · rw [if_pos h8]
      exact newTabCase_good o s cmd.args hinv
    rw [if_neg h8]
    by_cases h9 : cmd.type = "switch_tab"
    · rw [if_pos h9]
      exact switchTabCase_good o s cmd.args hinv
    rw [if_neg h9]
    by_cases h10 : cmd.type = "list_tabs"
    · rw [if_pos h10]
      exact listTabsCase_good o s hinv
    rw [if_neg h10]
    by_cases h11 : cmd.type = "current_tab"
    · rw [if_pos h11]
      exact currentTabCase_good o s hinv
    rw [if_neg h11]
    by_cases h12 : cmd.type = "stop"
    · rw [if_pos h12]
      exact ⟨⟨fun h => hinv.1 h, fun i t h => hinv.2 i t h⟩, preservesTabs_refl _⟩
    rw [if_neg h12]
    exact ⟨hinv, preservesTabs_refl _⟩

/-- The registry invariant holds in the freshly started daemon state. -/
theorem registryInv_s0 : RegistryInv s0 := by
  constructor
  · intro _
    decide
  · intro i t h
    cases i with
    | zero =>
        have h2 : (some { page := 0, title := "New Tab", url := "about:blank",
                          index := 0, purpose := Option.none } : Option Tab) = some t := h
        rw [← Option.some.inj h2]
    | succ n =>
        have h2 : (Option.none : Option Tab) = some t := h
        cases h2

/-- Witness for C9: the invariant before and after a `new_tab` command
on the started daemon. -/
theorem c9_witness :
    RegistryInv s0 ∧
    (RegistryInv (execute_command okO s0 { type := "new_tab", args := [] }).1 ∧
     PreservesTabs s0.pages (execute_command okO s0 { type := "new_tab", args := [] }).1.pages) :=
  ⟨registryInv_s0,
   c9_registry_invariant okO s0 { type := "new_tab", args := [] } registryInv_s0⟩
